import Mathlib

/-!
Shallow embedding of `rviz::MessageFilterDisplay<MessageType>` from
`src/rviz/message_filter_display.h`.

The class is a thin adapter: its state is a topic subscription handle
(`sub_`), a pointer to an external `tf2_ros::MessageFilter`
(`tf_filter_`), a `uint32_t` delivered-message counter
(`messages_received_`), the two user-facing properties (topic string and
"Unreliable" transport flag), and the per-key status lines (of which only
the key "Topic" is ever used by this class).  The abstract hook
`processMessage` and the calls into the external subscriber / filter /
render queue are recorded as events in a trace, so that theorems can speak
about "exactly one subscribe call", "the handler is invoked once with this
message", and so on.

Machine integers: `messages_received_` is a C++ `uint32_t`, so the
increment in `incomingMessage` is modelled as addition modulo `2^32`
(`4294967296`).
-/

namespace Rviz

/-- Status severity, mirroring `rviz::StatusProperty::Level`
(`Ok` / `Warn` / `Error`). -/
inductive StatusLevel
  | Ok
  | Warn
  | Error
deriving DecidableEq

/-- An open topic subscription, as produced by
`sub_.subscribe(update_nh_, topic, 10, transport_hint)`: the topic name and
whether the unreliable (UDP) transport hint was requested.  `unreliable`
records the branch on `unreliable_property_->getBool()` in `subscribe()`. -/
structure Subscription where
  topic : String
  unreliable : Bool
deriving DecidableEq

/-- The externally owned `tf2_ros::MessageFilter` that `tf_filter_` points
to: its target frame (set at construction in `onInitialize` from
`fixed_frame_`, and by `setTargetFrame` in `fixedFrameChanged`) and its
buffer of pending messages, which `tf_filter_->clear()` empties.  Message
payloads are abstracted to `Nat` identifiers: the adapter never inspects
them. -/
structure TFFilter where
  targetFrame : String
  buffer : List Nat
deriving DecidableEq

/-- The state of one `MessageFilterDisplay` object.

* `enabled` is the `Display` base-class enabled flag read by `isEnabled()`.
* `topicProp` / `unreliableProp` are the current values of
  `topic_property_` and `unreliable_property_`.
* `fixedFrame` is the inherited `fixed_frame_` field.
* `sub` is `none` when `sub_` holds no open subscription
  (after `sub_.unsubscribe()`), `some _` after a successful
  `sub_.subscribe(...)`.
* `tfFilter` is `none` while `tf_filter_` is NULL (before `onInitialize`
  and after the destructor), `some _` while the filter object is alive.
* `messagesReceived` is `messages_received_` (a `uint32_t`, kept in
  `[0, 2^32)`).
* `topicStatus` is the status line under the key "Topic", the only key
  this class ever passes to `setStatus`. -/
structure DisplayState where
  enabled : Bool
  topicProp : String
  unreliableProp : Bool
  fixedFrame : String
  sub : Option Subscription
  tfFilter : Option TFFilter
  messagesReceived : Nat
  topicStatus : Option (StatusLevel × String)
deriving DecidableEq

/-- Observable calls the adapter makes into its collaborators:
`sub_.subscribe` (with the topic and transport flag passed),
`sub_.unsubscribe`, `tf_filter_->clear`, `tf_filter_->setTargetFrame`,
`setStatus`, the abstract `processMessage` hook, and
`context_->queueRender`. -/
inductive Event
  | subscribeTopic (topic : String) (unreliable : Bool)
  | unsubscribeCall
  | filterClear
  | setTargetFrame (f : String)
  | statusSet (level : StatusLevel) (key : String) (text : String)
  | processMessage (m : Nat)
  | queueRender
deriving DecidableEq

/-- True exactly on `processMessage` events. -/
def Event.isProcess : Event → Bool
  | Event.processMessage _ => true
  | _ => false

/-- True exactly on `sub_.subscribe` events. -/
def Event.isSub : Event → Bool
  | Event.subscribeTopic _ _ => true
  | _ => false

/-- True exactly on `sub_.unsubscribe` events. -/
def Event.isUnsub : Event → Bool
  | Event.unsubscribeCall => true
  | _ => false

/-- The `uint32_t` modulus governing `messages_received_`. -/
def u32 : Nat := 4294967296

/-- Embeds `MessageFilterDisplay::incomingMessage(msg)`:
if the message pointer is null (`!msg`), return at once; otherwise
`++messages_received_` (a `uint32_t` increment, hence modulo `2^32`),
set the "Topic" status to "`n` messages received" with the new count `n`,
and call `processMessage(msg)`. -/
def incomingMessage (s : DisplayState) (msg : Option Nat) :
    DisplayState × List Event :=
  match msg with
  | none => (s, [])
  | some m =>
    let n := (s.messagesReceived + 1) % u32
    let text := toString n ++ " messages received"
    ({ s with messagesReceived := n,
              topicStatus := some (StatusLevel.Ok, text) },
     [Event.statusSet StatusLevel.Ok "Topic" text, Event.processMessage m])

/-- Embeds `MessageFilterDisplay::subscribe()`:
return immediately when `!isEnabled()`.  Otherwise call
`sub_.subscribe(update_nh_, topic_property_->getTopicStd(), 10, hint)`
where the hint is unreliable iff `unreliable_property_->getBool()`, inside
a try/catch on `ros::Exception`.  The parameter `exc` selects the outcome
of that external call: `none` means it returns normally (the subscription
is opened and the "Topic" status becomes `Ok`/"OK"); `some e` means it
throws `ros::Exception` with message `e`, which the catch block turns into
an `Error` status "Error subscribing: e".  In both cases `subscribe` is a
total function: the exception never escapes it.  On the throwing path
`sub` is `none`, matching the external `message_filters::Subscriber`,
whose `subscribe` first closes any previous subscription before opening
the new one. -/
def subscribe (s : DisplayState) (exc : Option String) :
    DisplayState × List Event :=
  if s.enabled = false then
    (s, [])
  else
    match exc with
    | none =>
      ({ s with sub := some { topic := s.topicProp,
                              unreliable := s.unreliableProp },
                topicStatus := some (StatusLevel.Ok, "OK") },
       [Event.subscribeTopic s.topicProp s.unreliableProp,
        Event.statusSet StatusLevel.Ok "Topic" "OK"])
    | some e =>
      ({ s with sub := none,
                topicStatus :=
                  some (StatusLevel.Error, "Error subscribing: " ++ e) },
       [Event.subscribeTopic s.topicProp s.unreliableProp,
        Event.statusSet StatusLevel.Error "Topic"
          ("Error subscribing: " ++ e)])

/-- Embeds `MessageFilterDisplay::unsubscribe()`: `sub_.unsubscribe()`. -/
def unsubscribe (s : DisplayState) : DisplayState × List Event :=
  ({ s with sub := none }, [Event.unsubscribeCall])

/-- Embeds `MessageFilterDisplay::reset()`: `Display::reset()` (which
touches none of the fields modelled here), `tf_filter_->clear()`, and
`messages_received_ = 0`. -/
def reset (s : DisplayState) : DisplayState × List Event :=
  ({ s with tfFilter := s.tfFilter.map (fun f => { f with buffer := [] }),
            messagesReceived := 0 },
   [Event.filterClear])

/-- Embeds `MessageFilterDisplay::updateTopic()` (the Qt slot fired when
the topic or "Unreliable" property changes): `unsubscribe(); reset();
subscribe(); context_->queueRender();`. -/
def updateTopic (s : DisplayState) (exc : Option String) :
    DisplayState × List Event :=
  let r1 := unsubscribe s
  let r2 := reset r1.1
  let r3 := subscribe r2.1 exc
  (r3.1, r1.2 ++ r2.2 ++ r3.2 ++ [Event.queueRender])

/-- Embeds `MessageFilterDisplay::onEnable()`: `subscribe()`.  The base
class has already set the enabled flag to true when this hook runs. -/
def onEnable (s : DisplayState) (exc : Option String) :
    DisplayState × List Event :=
  subscribe s exc

/-- Embeds `MessageFilterDisplay::onDisable()`: `unsubscribe(); reset();`.
The base class has already set the enabled flag to false when this hook
runs. -/
def onDisable (s : DisplayState) : DisplayState × List Event :=
  let r1 := unsubscribe s
  let r2 := reset r1.1
  (r2.1, r1.2 ++ r2.2)

/-- Embeds `MessageFilterDisplay::fixedFrameChanged()`:
`tf_filter_->setTargetFrame(fixed_frame_.toStdString()); reset();`.
The framework has already stored the new frame in `fixed_frame_` when
this hook runs. -/
def fixedFrameChanged (s : DisplayState) : DisplayState × List Event :=
  let s1 := { s with
    tfFilter := s.tfFilter.map (fun f => { f with targetFrame := s.fixedFrame }) }
  let r2 := reset s1
  (r2.1, Event.setTargetFrame s.fixedFrame :: r2.2)

/-- Embeds `MessageFilterDisplay::onInitialize()`: allocate the
`tf2_ros::MessageFilter` targeting `fixed_frame_` (its buffer starts
empty), connect `sub_` as its input, and register `incomingMessage` as its
callback.  The wiring calls have no further observable effect on the
modelled state. -/
def onInit (s : DisplayState) : DisplayState :=
  { s with tfFilter := some { targetFrame := s.fixedFrame, buffer := [] } }

/-- Embeds the destructor `~MessageFilterDisplay()`: `unsubscribe();
delete tf_filter_;` — the subscription is closed and the filter freed in
the same teardown step. -/
def destructor (s : DisplayState) : DisplayState × List Event :=
  let r1 := unsubscribe s
  ({ r1.1 with tfFilter := none }, r1.2)

/-- The lifecycle entry points the host framework calls on a display,
each bundled with the framework-side preparation that precedes it:
`enable` sets the enabled flag then runs `onEnable` (`exc` as in
`subscribe`); `disable` clears the flag then runs `onDisable`;
`topicChange t u` stores the new property values then runs the
`updateTopic` slot; `frameChange f` stores the new fixed frame then runs
`fixedFrameChanged`; `deliver m` is a callback delivery into
`incomingMessage` (`none` = null message pointer). -/
inductive Op
  | enable (exc : Option String)
  | disable
  | topicChange (t : String) (u : Bool) (exc : Option String)
  | frameChange (f : String)
  | deliver (m : Option Nat)
deriving DecidableEq

/-- Run one lifecycle operation. -/
def applyOp (s : DisplayState) (op : Op) : DisplayState × List Event :=
  match op with
  | Op.enable exc => onEnable { s with enabled := true } exc
  | Op.disable => onDisable { s with enabled := false }
  | Op.topicChange t u exc =>
      updateTopic { s with topicProp := t, unreliableProp := u } exc
  | Op.frameChange f => fixedFrameChanged { s with fixedFrame := f }
  | Op.deliver m => incomingMessage s m

/-- The state the constructor `MessageFilterDisplay()` establishes:
`tf_filter_ = NULL`, `messages_received_ = 0`, no subscription, display
not yet enabled, empty property strings. -/
def constructedState : DisplayState :=
  { enabled := false
    topicProp := ""
    unreliableProp := false
    fixedFrame := ""
    sub := none
    tfFilter := none
    messagesReceived := 0
    topicStatus := none }

/-- A display object together with its position in the C++ object
lifecycle: `initDone` becomes true when `onInitialize` has run,
`destroyed` when the destructor has. -/
structure FullState where
  disp : DisplayState
  initDone : Bool
  destroyed : Bool
deriving DecidableEq

/-- States reachable through the object lifecycle: construction, then
`onInitialize`, then any interleaving of the framework entry points, then
possibly the destructor. -/
inductive Reachable : FullState → Prop
  | ctor :
      Reachable { disp := constructedState, initDone := false, destroyed := false }
  | doInit {s : DisplayState} :
      Reachable { disp := s, initDone := false, destroyed := false } →
      Reachable { disp := onInit s, initDone := true, destroyed := false }
  | mid {s : DisplayState} (op : Op) :
      Reachable { disp := s, initDone := true, destroyed := false } →
      Reachable { disp := (applyOp s op).1, initDone := true, destroyed := false }
  | destroy {s : DisplayState} {b : Bool} :
      Reachable { disp := s, initDone := b, destroyed := false } →
      Reachable { disp := (destructor s).1, initDone := b, destroyed := true }

/-- The filter-and-subscription pair is set up: the object is alive (not
destroyed) and `tf_filter_` is allocated, so the subscriber member and the
filter it feeds are both in place. -/
def bothActive (fs : FullState) : Prop :=
  fs.destroyed = false ∧ fs.disp.tfFilter.isSome = true

/-- The filter-and-subscription pair is torn down: the filter is freed
(or not yet allocated) and no subscription is open. -/
def bothTornDown (fs : FullState) : Prop :=
  fs.disp.tfFilter = none ∧ fs.disp.sub = none

/-- A concrete display state used to instantiate the quantified theorems:
enabled, topic "scan", reliable transport, fixed frame "map", filter
allocated and empty, no messages yet. -/
def enabledState : DisplayState :=
  { enabled := true
    topicProp := "scan"
    unreliableProp := false
    fixedFrame := "map"
    sub := some { topic := "scan", unreliable := false }
    tfFilter := some { targetFrame := "map", buffer := [] }
    messagesReceived := 0
    topicStatus := none }

/-- A display state whose `uint32_t` counter sits at its maximum value
`2^32 - 1`, exhibiting the wrap-around of `++messages_received_`. -/
def maxCountState : DisplayState :=
  { enabledState with messagesReceived := 4294967295 }

/-- Claim C1: on an incoming delivery whose message pointer is null,
`incomingMessage` returns without changing any state — in particular the
delivered-count `messages_received_` is unchanged — and without invoking
the abstract per-item handler `processMessage`. -/
theorem C1_null_delivery_ignored (s : DisplayState) :
    incomingMessage s none = (s, [])
    ∧ (incomingMessage s none).1.messagesReceived = s.messagesReceived
    ∧ (incomingMessage s none).2.filter Event.isProcess = [] :=
  ⟨rfl, rfl, rfl⟩

/-- Claim C2, counterexample: with the `uint32_t` counter at its maximum
`2^32 - 1`, a non-null delivery wraps `messages_received_` around to 0,
so the count is not incremented by exactly one. -/
theorem C2_increment_cex :
    ¬ ((incomingMessage maxCountState (some 5)).1.messagesReceived
        = maxCountState.messagesReceived + 1) := by decide

/-- Claim C2 (amended): on a non-null delivery, `incomingMessage` sets
`messages_received_` to its successor modulo `2^32` — an increment by
exactly one whenever the counter has not reached `2^32 - 1` — and invokes
the abstract handler `processMessage` exactly once, with that message. -/
theorem C2_delivery_increments_and_processes (s : DisplayState) (m : Nat) :
    (incomingMessage s (some m)).1.messagesReceived
      = (s.messagesReceived + 1) % u32
    ∧ (incomingMessage s (some m)).2.filter Event.isProcess
      = [Event.processMessage m]
    ∧ (s.messagesReceived + 1 < u32 →
        (incomingMessage s (some m)).1.messagesReceived
          = s.messagesReceived + 1) := by
  refine ⟨rfl, rfl, fun h => ?_⟩
  show (s.messagesReceived + 1) % u32 = s.messagesReceived + 1
  exact Nat.mod_eq_of_lt h

theorem C2_delivery_increments_witness :
    (incomingMessage enabledState (some 7)).1.messagesReceived
      = enabledState.messagesReceived + 1 :=
  (C2_delivery_increments_and_processes enabledState 7).2.2 (by decide)

/-- Claim C3: enabling the display (the framework sets the enabled flag
and calls `onEnable`) performs exactly one `sub_.subscribe` call, on the
configured topic with the configured transport flag, and no unsubscribe;
disabling performs an `sub_.unsubscribe` (closing the subscription) and
resets `messages_received_` to zero. -/
theorem C3_enable_opens_disable_closes (s : DisplayState) :
    (applyOp s (Op.enable none)).2.filter Event.isSub
      = [Event.subscribeTopic s.topicProp s.unreliableProp]
    ∧ (applyOp s (Op.enable none)).2.filter Event.isUnsub = []
    ∧ (applyOp s (Op.enable none)).1.sub
      = some { topic := s.topicProp, unreliable := s.unreliableProp }
    ∧ (applyOp s Op.disable).2.filter Event.isUnsub = [Event.unsubscribeCall]
    ∧ (applyOp s Op.disable).2.filter Event.isSub = []
    ∧ (applyOp s Op.disable).1.sub = none
    ∧ (applyOp s Op.disable).1.messagesReceived = 0 :=
  ⟨rfl, rfl, rfl, rfl, rfl, rfl, rfl⟩

/-- Claim C4: on an enabled display, a topic (or reliability) change runs
the `updateTopic` slot, whose subscriber traffic is exactly one
`sub_.unsubscribe` followed by exactly one `sub_.subscribe` on the newly
configured topic; afterwards the open subscription is on the new topic
with the new transport flag. -/
theorem C4_topic_change_resubscribes (s : DisplayState) (t : String)
    (u : Bool) (h : s.enabled = true) :
    (applyOp s (Op.topicChange t u none)).2.filter
        (fun e => e.isUnsub || e.isSub)
      = [Event.unsubscribeCall, Event.subscribeTopic t u]
    ∧ (applyOp s (Op.topicChange t u none)).1.sub
      = some { topic := t, unreliable := u } := by
  constructor <;>
    simp [applyOp, updateTopic, unsubscribe, reset, subscribe, h,
      Event.isSub, Event.isUnsub]

theorem C4_topic_change_witness :
    (applyOp enabledState (Op.topicChange "new" true none)).2.filter
        (fun e => e.isUnsub || e.isSub)
      = [Event.unsubscribeCall, Event.subscribeTopic "new" true]
    ∧ (applyOp enabledState (Op.topicChange "new" true none)).1.sub
      = some { topic := "new", unreliable := true } :=
  C4_topic_change_resubscribes enabledState "new" true rfl

/-- Claim C5: a fixed-frame change runs `fixedFrameChanged`, which
retargets and clears the filter's buffered state and resets the
delivered-count to zero, while the subscription handle is left exactly as
it was: no subscribe or unsubscribe call is made. -/
theorem C5_frame_change_keeps_subscription (s : DisplayState) (f : String)
    (tf : TFFilter) (h : s.tfFilter = some tf) :
    (applyOp s (Op.frameChange f)).1.sub = s.sub
    ∧ (applyOp s (Op.frameChange f)).1.messagesReceived = 0
    ∧ (applyOp s (Op.frameChange f)).1.tfFilter
      = some { targetFrame := f, buffer := [] }
    ∧ (applyOp s (Op.frameChange f)).2.filter
        (fun e => e.isUnsub || e.isSub) = [] := by
  refine ⟨rfl, rfl, ?_, rfl⟩
  simp [applyOp, fixedFrameChanged, reset, h]

theorem C5_frame_change_witness :
    (applyOp enabledState (Op.frameChange "odom")).1.sub = enabledState.sub
    ∧ (applyOp enabledState (Op.frameChange "odom")).1.messagesReceived = 0
    ∧ (applyOp enabledState (Op.frameChange "odom")).1.tfFilter
      = some { targetFrame := "odom", buffer := [] }
    ∧ (applyOp enabledState (Op.frameChange "odom")).2.filter
        (fun e => e.isUnsub || e.isSub) = [] :=
  C5_frame_change_keeps_subscription enabledState "odom"
    { targetFrame := "map", buffer := [] } rfl

/-- Claim C6: on an enabled display, when the external subscribe call
throws, the catch block inside `subscribe` turns the exception into an
`Error` status on the "Topic" line reading "Error subscribing: " followed
by the exception text — `subscribe` is a total function in this model, so
the exception never reaches the caller — and when the call succeeds the
"Topic" status is set to `Ok` / "OK". -/
theorem C6_subscribe_error_caught (s : DisplayState) (e : String)
    (h : s.enabled = true) :
    (subscribe s (some e)).1.topicStatus
      = some (StatusLevel.Error, "Error subscribing: " ++ e)
    ∧ (subscribe s none).1.topicStatus = some (StatusLevel.Ok, "OK") := by
  constructor <;> simp [subscribe, h]

theorem C6_subscribe_error_witness :
    (subscribe enabledState (some "boom")).1.topicStatus
      = some (StatusLevel.Error, "Error subscribing: " ++ "boom")
    ∧ (subscribe enabledState none).1.topicStatus
      = some (StatusLevel.Ok, "OK") :=
  C6_subscribe_error_caught enabledState "boom" rfl

/-- Claim C9: when the display is not enabled, `subscribe` returns at the
initial `!isEnabled()` guard: it opens no subscription, sets no status,
and the whole state is unchanged. -/
theorem C9_subscribe_disabled_noop (s : DisplayState) (exc : Option String)
    (h : s.enabled = false) :
    subscribe s exc = (s, []) := by
  simp [subscribe, h]

theorem C9_subscribe_disabled_witness :
    subscribe constructedState none = (constructedState, []) :=
  C9_subscribe_disabled_noop constructedState none rfl

/-- Claim C10: every topic-name or reliability change (the `updateTopic`
slot) calls `reset()`, which clears the filter's buffer and zeroes
`messages_received_`, in addition to the unsubscribe call that always
precedes it and the resubscribe attempt made whenever the display is
enabled. -/
theorem C10_topic_change_clears (s : DisplayState) (t : String) (u : Bool)
    (exc : Option String) (tf : TFFilter) (h : s.tfFilter = some tf) :
    (applyOp s (Op.topicChange t u exc)).1.messagesReceived = 0
    ∧ (applyOp s (Op.topicChange t u exc)).1.tfFilter
      = some { tf with buffer := [] }
    ∧ (applyOp s (Op.topicChange t u exc)).2.filter Event.isUnsub
      = [Event.unsubscribeCall]
    ∧ (s.enabled = true →
        (applyOp s (Op.topicChange t u exc)).2.filter Event.isSub
          = [Event.subscribeTopic t u]) := by
  cases hE : s.enabled <;> cases exc <;>
    simp [applyOp, updateTopic, unsubscribe, reset, subscribe, h, hE,
      Event.isSub, Event.isUnsub]

theorem C10_topic_change_clears_witness :
    (applyOp enabledState (Op.topicChange "pc" false none)).1.messagesReceived = 0
    ∧ (applyOp enabledState (Op.topicChange "pc" false none)).1.tfFilter
      = some { targetFrame := "map", buffer := ([] : List Nat) }
    ∧ (applyOp enabledState (Op.topicChange "pc" false none)).2.filter
        Event.isUnsub = [Event.unsubscribeCall]
    ∧ (enabledState.enabled = true →
        (applyOp enabledState (Op.topicChange "pc" false none)).2.filter
          Event.isSub = [Event.subscribeTopic "pc" false]) :=
  C10_topic_change_clears enabledState "pc" false none
    { targetFrame := "map", buffer := [] } rfl

/-- No lifecycle operation deallocates the filter: whenever `tf_filter_`
is non-NULL it stays non-NULL across every framework entry point (only
the destructor frees it). -/
lemma applyOp_tfFilter_isSome (s : DisplayState) (op : Op)
    (h : s.tfFilter.isSome = true) :
    ((applyOp s op).1.tfFilter).isSome = true := by
  obtain ⟨tf, htf⟩ := Option.isSome_iff_exists.mp h
  cases op with
  | enable exc => cases exc <;> simp [applyOp, onEnable, subscribe, htf]
  | disable => simp [applyOp, onDisable, unsubscribe, reset, htf]
  | topicChange t u exc =>
      cases hE : s.enabled <;> cases exc <;>
        simp [applyOp, updateTopic, unsubscribe, reset, subscribe, hE, htf]
  | frameChange f => simp [applyOp, fixedFrameChanged, reset, htf]
  | deliver m => cases m <;> simp [applyOp, incomingMessage, htf]

/-- Lifecycle invariant behind claim C7: before `onInitialize` and after
the destructor, filter and subscription are both down; between them the
filter is allocated. -/
lemma reachable_inv {fs : FullState} (h : Reachable fs) :
    (fs.destroyed = false → fs.initDone = true →
      fs.disp.tfFilter.isSome = true)
    ∧ (fs.destroyed = false → fs.initDone = false →
      fs.disp.tfFilter = none ∧ fs.disp.sub = none)
    ∧ (fs.destroyed = true →
      fs.disp.tfFilter = none ∧ fs.disp.sub = none) := by
  induction h with
  | ctor =>
      exact ⟨fun _ hF => absurd hF (by decide), fun _ _ => ⟨rfl, rfl⟩,
        fun hd => absurd hd (by decide)⟩
  | doInit hprev ih =>
      exact ⟨fun _ _ => rfl, fun _ hF => by simp at hF,
        fun hd => by simp at hd⟩
  | mid op hprev ih =>
      exact ⟨fun _ _ => applyOp_tfFilter_isSome _ op (ih.1 rfl rfl),
        fun _ hF => by simp at hF,
        fun hd => by simp at hd⟩
  | destroy hprev ih =>
      exact ⟨fun hF _ => by simp at hF,
        fun hF _ => by simp at hF, fun _ => ⟨rfl, rfl⟩⟩

/-- Claim C7: in every state reachable through the lifecycle
(construction, `onInitialize`, any sequence of enable / disable / topic
change / frame change / delivery, destructor), the transform filter and
the subscription are either both active (the object is alive with its
filter allocated and the subscriber wired to it) or both torn down
(filter freed or not yet allocated, and no open subscription). -/
theorem C7_both_active_or_torn_down (fs : FullState) (h : Reachable fs) :
    bothActive fs ∨ bothTornDown fs := by
  have hi := reachable_inv h
  cases hd : fs.destroyed with
  | true => exact Or.inr (hi.2.2 hd)
  | false =>
      cases hb : fs.initDone with
      | true => exact Or.inl ⟨hd, hi.1 hd hb⟩
      | false => exact Or.inr (hi.2.1 hd hb)

theorem C7_both_active_or_torn_down_witness :
    bothActive
      { disp := onInit constructedState, initDone := true, destroyed := false }
    ∨ bothTornDown
      { disp := onInit constructedState, initDone := true, destroyed := false } :=
  C7_both_active_or_torn_down _ (Reachable.doInit Reachable.ctor)

/-- Claim C8, counterexample: a non-null delivery with the `uint32_t`
counter at `2^32 - 1` wraps it to 0 — a strict decrease, not a strict
increase. -/
theorem C8_monotone_cex :
    ¬ (maxCountState.messagesReceived
        < (applyOp maxCountState (Op.deliver (some 3))).1.messagesReceived) := by
  decide

/-- Claim C8 (amended): between resets, the delivered-count is governed
only by deliveries.  Enabling and null deliveries leave it unchanged; a
non-null delivery sets it to its successor modulo `2^32`, a strict
increase whenever the counter has not reached `2^32 - 1`; and the other
three operations (disable, topic change, frame change) each contain a
reset, zeroing the counter — so no operation other than a reset ever
lowers it. -/
theorem C8_count_changes_only_on_delivery (s : DisplayState)
    (exc : Option String) (m : Nat) (t f : String) (u : Bool) :
    (applyOp s (Op.enable exc)).1.messagesReceived = s.messagesReceived
    ∧ (applyOp s (Op.deliver none)).1.messagesReceived = s.messagesReceived
    ∧ (applyOp s (Op.deliver (some m))).1.messagesReceived
      = (s.messagesReceived + 1) % u32
    ∧ (s.messagesReceived + 1 < u32 →
        s.messagesReceived
          < (applyOp s (Op.deliver (some m))).1.messagesReceived)
    ∧ (applyOp s Op.disable).1.messagesReceived = 0
    ∧ (applyOp s (Op.frameChange f)).1.messagesReceived = 0
    ∧ (applyOp s (Op.topicChange t u exc)).1.messagesReceived = 0 := by
  refine ⟨?_, rfl, rfl, fun h => ?_, rfl, rfl, ?_⟩
  · cases exc <;> rfl
  · show s.messagesReceived < (s.messagesReceived + 1) % u32
    rw [Nat.mod_eq_of_lt h]
    exact Nat.lt_succ_self _
  · cases hE : s.enabled <;> cases exc <;>
      simp [applyOp, updateTopic, unsubscribe, reset, subscribe, hE]

theorem C8_count_changes_witness :
    enabledState.messagesReceived
      < (applyOp enabledState (Op.deliver (some 3))).1.messagesReceived :=
  (C8_count_changes_only_on_delivery enabledState none 3 "t" "f" false).2.2.2.1
    (by decide)

end Rviz
